import Mathlib

/-!
Shallow embedding of the GovHUB backend's appointment booking engine
(`src/controller/TicketController.js`, `src/model/TicketModel.js`).

Wall-clock instants are modelled as calendar records compared
lexicographically; `moment` accessors (`hour()`, `minute()`, `day()`,
`startOf("day")`, `format`, `add(3, "months")`, `isBefore`, `isAfter`)
are translated to executable functions.  A crucial source detail kept
here: `moment` objects are mutable, so `bookingTime.startOf("day")`
inside the conflict query rewrites `bookingTime` in place, and every
later read of `bookingTime` sees midnight.  The MongoDB ledger is a
list of tickets; `findOne` is `List.find?`; a query that may throw is
an `Except`.
-/

namespace GovHub

/-- A wall-clock instant as parsed by `moment("YYYY-MM-DD HH:mm")`. -/
structure DateTime where
  year : Nat
  month : Nat
  day : Nat
  hour : Nat
  minute : Nat
  deriving DecidableEq, Repr

/-- Lexicographic instant comparison: `moment.isBefore`. -/
def dtLt (a b : DateTime) : Bool :=
  if a.year ≠ b.year then a.year < b.year
  else if a.month ≠ b.month then a.month < b.month
  else if a.day ≠ b.day then a.day < b.day
  else if a.hour ≠ b.hour then a.hour < b.hour
  else a.minute < b.minute

/-- Gregorian leap year. -/
def isLeap (y : Nat) : Bool :=
  (y % 4 == 0 && y % 100 != 0) || y % 400 == 0

/-- Days in a Gregorian month. -/
def daysInMonth (y m : Nat) : Nat :=
  if m == 2 then (if isLeap y then 29 else 28)
  else if m == 4 || m == 6 || m == 9 || m == 11 then 30
  else 31

/-- Translation of `moment(now).add(3, "months")`: add three calendar months, clamping
the day-of-month to the target month's length. -/
def addMonths3 (dt : DateTime) : DateTime :=
  let m0 := dt.month + 3
  let y := if 12 < m0 then dt.year + 1 else dt.year
  let m := if 12 < m0 then m0 - 12 else m0
  { dt with year := y, month := m, day := min dt.day (daysInMonth y m) }

/-- Translation of `moment.day()`: day of week, 0 = Sunday .. 6 = Saturday
(Sakamoto's method, valid for Gregorian dates). -/
def dayOfWeek (dt : DateTime) : Nat :=
  let t := [0, 3, 2, 5, 0, 3, 5, 1, 4, 6, 2, 4]
  let y := if dt.month < 3 then dt.year - 1 else dt.year
  (y + y / 4 - y / 100 + y / 400 + t.getD (dt.month - 1) 0 + dt.day) % 7

/-- Translation of `moment.startOf("day")`: the same calendar day at 00:00 (the source
mutates the moment in place; here the embedding threads the mutated
value explicitly). -/
def startOfDay (dt : DateTime) : DateTime :=
  { dt with hour := 0, minute := 0 }

/-- Two-digit zero padding used by `moment.format`. -/
def pad2 (n : Nat) : String :=
  if n < 10 then "0" ++ toString n else toString n

/-- The client-supplied `"HH:mm"` time string. -/
def fmtHM (h m : Nat) : String :=
  pad2 h ++ ":" ++ pad2 m

/-- Translation of `moment.format("HH:mm:ss")`. -/
def fmtHMS (h m s : Nat) : String :=
  fmtHM h m ++ ":" ++ pad2 s

/-- The `ticketSchema.status` enum. -/
inductive Status
  | Pending
  | Approved
  | Rejected
  | Cancelled
  deriving DecidableEq, Repr

/-- A persisted ticket (the fields of `ticketSchema` the booking engine
reads or writes; ids are numbers standing in for ObjectIds). -/
structure Ticket where
  id : Nat
  customerID : Nat
  departmentID : Nat
  status : Status
  appointmentDate : DateTime
  appointmentTime : String
  appointmentDateTime : DateTime
  closedDate : Option DateTime
  rejectionReason : Option String
  staffID : Option String
  deriving DecidableEq, Repr

/- ------------------------------------------------------------------
Validation predicates shared by `checkAvailability`, `addTicket` and
`updateTicket` (translated condition for condition).
------------------------------------------------------------------ -/

/-- Source condition `hour < 8 || (hour === 15 && minute > 50) || hour > 15`. -/
def outsideOperatingHours (dt : DateTime) : Bool :=
  decide (dt.hour < 8) || (decide (dt.hour = 15) && decide (50 < dt.minute)) ||
    decide (15 < dt.hour)

/-- Source condition `minute % 15 !== 0`. -/
def badInterval (dt : DateTime) : Bool :=
  decide (dt.minute % 15 ≠ 0)

/-- Source condition `day() === 0 || day() === 6`. -/
def isWeekend (dt : DateTime) : Bool :=
  decide (dayOfWeek dt = 0) || decide (dayOfWeek dt = 6)

/-- Source condition `requestedDateTime.isBefore(moment())`. -/
def inPast (dt now : DateTime) : Bool :=
  dtLt dt now

/-- Source condition `requestedDateTime.isAfter(moment().add(3, "months"))`. -/
def tooFarAhead (dt now : DateTime) : Bool :=
  dtLt (addMonths3 now) dt

/- ------------------------------------------------------------------
checkAvailability
------------------------------------------------------------------ -/

/-- The `Ticket.findOne` filter of `checkAvailability`: same
`appointmentDateTime` instant, or same `appointmentDate` midnight with
the raw `"HH:mm"` request string as `appointmentTime`; status not
`Rejected`.  (`moment(date).startOf("day")` is a fresh moment there, so
`requestedDateTime` is not mutated.) -/
def slotQuery (rq : DateTime) (t : Ticket) : Prop :=
  (t.appointmentDateTime = rq ∨
    (t.appointmentDate = startOfDay rq ∧ t.appointmentTime = fmtHM rq.hour rq.minute)) ∧
  t.status ≠ Status.Rejected

instance (rq : DateTime) (t : Ticket) : Decidable (slotQuery rq t) := by
  unfold slotQuery; infer_instance

/-- Result of the availability endpoint: `ok` is an `res.json` reply
(HTTP 200) with the `available` flag and `message`; `serverError` is
the HTTP 500 catch branch. -/
inductive CheckResult
  | ok (available : Bool) (message : String)
  | serverError
  deriving DecidableEq, Repr

/-- HTTP status of a `CheckResult`. -/
def CheckResult.httpStatus : CheckResult → Nat
  | .ok _ _ => 200
  | .serverError => 500

/-- The `available` flag of a `CheckResult` body (absent on the 500
error body). -/
def CheckResult.availableFlag : CheckResult → Option Bool
  | .ok a _ => some a
  | .serverError => none

/-- Embedding of `TicketController.checkAvailability`: `rq` is the moment parsed
from the request's `date`/`time` strings; `db` is the outcome of the
`findOne` ledger access (`.error` when the query throws). -/
def checkAvailability (now : DateTime) (db : Except Unit (List Ticket))
    (rq : DateTime) : CheckResult :=
  if outsideOperatingHours rq then
    .ok false "Time must be between 8:00 AM and 3:50 PM."
  else if badInterval rq then
    .ok false "Appointments must be scheduled at 15-minute intervals."
  else if isWeekend rq then
    .ok false "Appointments cannot be scheduled on weekends."
  else if inPast rq now then
    .ok false "Cannot book appointments in the past."
  else if tooFarAhead rq now then
    .ok false "Cannot book appointments more than 3 months in advance."
  else
    match db with
    | .error _ => .serverError
    | .ok ts =>
      match ts.find? (fun t => decide (slotQuery rq t)) with
      | some _ => .ok false "This slot is already booked."
      | none => .ok true "Time slot is available"

/- ------------------------------------------------------------------
addTicket
------------------------------------------------------------------ -/

/-- Creation request body (booking fields only; `bookingTime` is the
moment parsed from `appointmentDateTime` or `appointmentDate` +
`appointmentTime`).  `newId` stands for the ObjectId minted at save. -/
structure AddReq where
  newId : Nat
  customerID : Nat
  departmentID : Nat
  requested : DateTime
  deriving DecidableEq, Repr

/-- The `Ticket.findOne` filter of `addTicket`.  Object-literal fields
evaluate in order: `bookingTime.toDate()` first yields the requested
instant, then `bookingTime.startOf("day")` mutates `bookingTime` to
midnight, so `bookingTime.format("HH:mm:ss")` in the second branch is
always `"00:00:00"`. -/
def addConflictQ (rq : DateTime) (t : Ticket) : Prop :=
  (t.appointmentDateTime = rq ∨
    (t.appointmentDate = startOfDay rq ∧ t.appointmentTime = fmtHMS 0 0 0)) ∧
  t.status ≠ Status.Rejected

instance (rq : DateTime) (t : Ticket) : Decidable (addConflictQ rq t) := by
  unfold addConflictQ; infer_instance

/-- Result of ticket creation: 201 with the saved ticket, 400 with a
validation message, or the 500 catch branch. -/
inductive AddResult
  | created (t : Ticket)
  | badRequest (message : String)
  | serverError
  deriving DecidableEq, Repr

/-- HTTP status of an `AddResult`. -/
def AddResult.httpStatus : AddResult → Nat
  | .created _ => 201
  | .badRequest _ => 400
  | .serverError => 500

/-- The document saved by `addTicket`.  After the conflict query has
run, `bookingTime` has been mutated to `startOfDay` of the request, so
the saved ticket's three scheduling fields are all derived from
midnight: `appointmentDateTime = startOfDay rq`, `appointmentDate =
startOfDay rq`, `appointmentTime = "00:00:00"`. -/
def newTicketDoc (req : AddReq) : Ticket :=
  { id := req.newId
    customerID := req.customerID
    departmentID := req.departmentID
    status := Status.Pending
    appointmentDateTime := startOfDay req.requested
    appointmentDate := startOfDay req.requested
    appointmentTime := fmtHMS 0 0 0
    closedDate := none
    rejectionReason := none
    staffID := none }

/-- Embedding of `TicketController.addTicket` (the validating variant). -/
def addTicket (now : DateTime) (db : Except Unit (List Ticket))
    (req : AddReq) : AddResult :=
  let bt := req.requested
  if outsideOperatingHours bt then
    .badRequest "Booking must be between 8:00 AM and 3:50 PM."
  else if badInterval bt then
    .badRequest "Appointments must be scheduled at 15-minute intervals."
  else if isWeekend bt then
    .badRequest "Appointments cannot be scheduled on weekends."
  else if inPast bt now then
    .badRequest "Cannot book appointments in the past."
  else if tooFarAhead bt now then
    .badRequest "Cannot book appointments more than 3 months in advance."
  else
    match db with
    | .error _ => .serverError
    | .ok ts =>
      match ts.find? (fun t => decide (addConflictQ bt t)) with
      | some _ => .badRequest "This slot is already booked."
      | none => .created (newTicketDoc req)

/- ------------------------------------------------------------------
updateTicket
------------------------------------------------------------------ -/

/-- The `PUT /tickets/:id` request body: the fields of `req.body` the
update path reads (`Object.assign` merges whichever are present). -/
structure UpdateBody where
  status : Option Status
  appointmentDateTime : Option DateTime
  deriving DecidableEq, Repr

/-- Translation of `Object.assign(ticket, req.body)`: every field present in the body
overwrites the document's field.  Mongoose casts the body's raw
`appointmentDateTime` string back to a `Date`, so an assigned
`appointmentDateTime` is the caller's (unmutated) instant. -/
def applyAssign (t : Ticket) (body : UpdateBody) : Ticket :=
  let t1 :=
    match body.status with
    | some s => { t with status := s }
    | none => t
  match body.appointmentDateTime with
  | some d => { t1 with appointmentDateTime := d }
  | none => t1

/-- Result of `updateTicket`: 200 with the saved ticket, 400 with a
validation message, or 404. -/
inductive UpdateResult
  | ok (t : Ticket)
  | badRequest (message : String)
  | notFound
  deriving DecidableEq, Repr

/-- HTTP status of an `UpdateResult`. -/
def UpdateResult.httpStatus : UpdateResult → Nat
  | .ok _ => 200
  | .badRequest _ => 400
  | .notFound => 404

/-- Embedding of `TicketController.updateTicket` (the validating variant).  When the
body carries an `appointmentDateTime`, the new time is validated like a
creation, a conflict lookup excludes the ticket itself, and then —
because the conflict query's `startOf("day")` mutated `newTime` — the
three scheduling fields are written from midnight; the final
`Object.assign` then overwrites `appointmentDateTime` with the body's
raw value.  A body status of `Approved` or `Rejected` sets
`closedDate`; any other status (including `Cancelled`) does not. -/
def updateTicket (now : DateTime) (db : List Ticket) (id : Nat)
    (body : UpdateBody) : UpdateResult :=
  match db.find? (fun t => decide (t.id = id)) with
  | none => .notFound
  | some ticket =>
    match body.appointmentDateTime with
    | some newTime =>
      if outsideOperatingHours newTime then
        .badRequest "Booking must be between 8:00 AM and 3:50 PM."
      else if badInterval newTime then
        .badRequest "Appointments must be scheduled at 15-minute intervals."
      else if isWeekend newTime then
        .badRequest "Appointments cannot be scheduled on weekends."
      else if inPast newTime now then
        .badRequest "Cannot book appointments in the past."
      else if tooFarAhead newTime now then
        .badRequest "Cannot book appointments more than 3 months in advance."
      else
        match (db.filter (fun t => decide (t.id ≠ id))).find?
            (fun t => decide (addConflictQ newTime t)) with
        | some _ => .badRequest "This slot is already booked."
        | none =>
          let t1 := { ticket with
            appointmentDate := startOfDay newTime
            appointmentTime := fmtHMS 0 0 0
            appointmentDateTime := startOfDay newTime }
          let t2 :=
            if body.status = some Status.Approved ∨ body.status = some Status.Rejected
            then { t1 with closedDate := some now } else t1
          .ok (applyAssign t2 body)
    | none =>
      let t2 :=
        if body.status = some Status.Approved ∨ body.status = some Status.Rejected
        then { ticket with closedDate := some now } else ticket
      .ok (applyAssign t2 body)

/- ------------------------------------------------------------------
deleteTicket
------------------------------------------------------------------ -/

/-- Result of `deleteTicket`: success or 404. -/
inductive DeleteResult
  | ok
  | notFound
  deriving DecidableEq, Repr

/-- Embedding of `TicketController.deleteTicket`: `Ticket.findByIdAndDelete` — the
document is physically removed from the collection; returns the
response and the resulting ledger. -/
def deleteTicket (db : List Ticket) (id : Nat) : DeleteResult × List Ticket :=
  match db.find? (fun t => decide (t.id = id)) with
  | none => (.notFound, db)
  | some _ => (.ok, db.filter (fun t => decide (t.id ≠ id)))

/- ------------------------------------------------------------------
rejectTicket
------------------------------------------------------------------ -/

/-- The `PUT /tickets/:id/reject` body.  A missing `rejectionReason` and
the empty string are both falsy in `if (!rejectionReason)`, so the
empty string models both. -/
structure RejectBody where
  rejectionReason : String
  staffID : Option String
  deriving DecidableEq, Repr

/-- Result of `rejectTicket`: 200 with the saved ticket, 400, or 404. -/
inductive RejectResult
  | ok (t : Ticket)
  | badRequest (message : String)
  | notFound
  deriving DecidableEq, Repr

/-- HTTP status of a `RejectResult`. -/
def RejectResult.httpStatus : RejectResult → Nat
  | .ok _ => 200
  | .badRequest _ => 400
  | .notFound => 404

/-- Embedding of `TicketController.rejectTicket`: an empty/missing reason returns
400 before the ticket is even looked up (the ledger is untouched);
otherwise status becomes `Rejected`, the reason and `closedDate := now`
are stored, and a truthy `staffID` is recorded.  Returns the response
and the resulting ledger. -/
def rejectTicket (now : DateTime) (db : List Ticket) (id : Nat)
    (body : RejectBody) : RejectResult × List Ticket :=
  if body.rejectionReason = "" then
    (.badRequest "Rejection reason is required", db)
  else
    match db.find? (fun t => decide (t.id = id)) with
    | none => (.notFound, db)
    | some ticket =>
      let t1 := { ticket with
        status := Status.Rejected
        rejectionReason := some body.rejectionReason
        closedDate := some now }
      let t2 :=
        match body.staffID with
        | some s => if s = "" then t1 else { t1 with staffID := some s }
        | none => t1
      (.ok t2, db.map (fun t => if t.id = id then t2 else t))

/- ------------------------------------------------------------------
Spec-side ordered-validation cascade (§4.4 of the spec), used only to
compare against the code: "first failing rule wins, short-circuit".
------------------------------------------------------------------ -/

/-- Modelled from the spec's §4.4 wording: the reported reason is that
of the first rule in the list that fails; `none` when every rule
passes. -/
def firstFailing : List (Bool × String) → Option String
  | [] => none
  | (b, msg) :: rest => if b then some msg else firstFailing rest

/-- Modelled from the spec: the fixed rule order of §4.4 — operating
hours, 15-minute alignment, weekend, not-in-past, 3-month horizon,
slot conflict — paired with the messages of the availability
endpoint. -/
def specCheckRules (now rq : DateTime) (conflict : Bool) : List (Bool × String) :=
  [ (outsideOperatingHours rq, "Time must be between 8:00 AM and 3:50 PM."),
    (badInterval rq, "Appointments must be scheduled at 15-minute intervals."),
    (isWeekend rq, "Appointments cannot be scheduled on weekends."),
    (inPast rq now, "Cannot book appointments in the past."),
    (tooFarAhead rq now, "Cannot book appointments more than 3 months in advance."),
    (conflict, "This slot is already booked.") ]

/-- Modelled from the spec: the same fixed rule order paired with the
creation endpoint's messages. -/
def specAddRules (now rq : DateTime) (conflict : Bool) : List (Bool × String) :=
  [ (outsideOperatingHours rq, "Booking must be between 8:00 AM and 3:50 PM."),
    (badInterval rq, "Appointments must be scheduled at 15-minute intervals."),
    (isWeekend rq, "Appointments cannot be scheduled on weekends."),
    (inPast rq now, "Cannot book appointments in the past."),
    (tooFarAhead rq now, "Cannot book appointments more than 3 months in advance."),
    (conflict, "This slot is already booked.") ]

/- ------------------------------------------------------------------
Concrete fixtures used by counterexamples and witnesses.
2025-03-10 is a Monday; 2025-06-10 is a Tuesday.
------------------------------------------------------------------ -/

/-- The current wall clock: Monday 2025-03-10 08:00. -/
def now0 : DateTime := ⟨2025, 3, 10, 8, 0⟩

/-- A requested slot: Monday 2025-03-10 09:00. -/
def rq0 : DateTime := ⟨2025, 3, 10, 9, 0⟩

/-- A creation request for department 1 at `rq0`. -/
def addReq1 : AddReq := ⟨100, 1, 1, rq0⟩

/-- A `Pending` ticket of a *different* department (2) whose
`appointmentDateTime` is `rq0`. -/
def tOtherDept : Ticket :=
  { id := 7
    customerID := 2
    departmentID := 2
    status := Status.Pending
    appointmentDate := ⟨2025, 3, 10, 0, 0⟩
    appointmentTime := "09:00:00"
    appointmentDateTime := rq0
    closedDate := none
    rejectionReason := none
    staffID := none }

/-- A `Cancelled` ticket of the *same* department (1) whose
`appointmentDateTime` is `rq0`. -/
def tCancelledSameDept : Ticket :=
  { id := 8
    customerID := 3
    departmentID := 1
    status := Status.Cancelled
    appointmentDate := ⟨2025, 3, 10, 0, 0⟩
    appointmentTime := "09:00:00"
    appointmentDateTime := rq0
    closedDate := some ⟨2025, 3, 9, 12, 0⟩
    rejectionReason := none
    staffID := none }

/-- A ticket already in the terminal state `Approved`. -/
def tApproved : Ticket :=
  { id := 5
    customerID := 1
    departmentID := 1
    status := Status.Approved
    appointmentDate := ⟨2025, 3, 11, 0, 0⟩
    appointmentTime := "00:00:00"
    appointmentDateTime := ⟨2025, 3, 11, 0, 0⟩
    closedDate := some ⟨2025, 3, 9, 12, 0⟩
    rejectionReason := none
    staffID := none }

/-- A `Pending` ticket with no `closedDate`. -/
def tPend : Ticket :=
  { id := 3
    customerID := 4
    departmentID := 1
    status := Status.Pending
    appointmentDate := ⟨2025, 3, 12, 0, 0⟩
    appointmentTime := "00:00:00"
    appointmentDateTime := ⟨2025, 3, 12, 0, 0⟩
    closedDate := none
    rejectionReason := none
    staffID := none }

/- ==================================================================
Theorems
================================================================== -/

/-- Lexicographic instant comparison is irreflexive. -/
lemma dtLt_irrefl (a : DateTime) : dtLt a a = false := by
  simp [dtLt]

/-- Lemma: `checkAvailability` is exactly the first-failing-rule cascade over
`specCheckRules`, with its own conflict bit plugged in last. -/
lemma checkAvailability_cascade (now rq : DateTime) (ts : List Ticket) :
    checkAvailability now (.ok ts) rq =
      match firstFailing (specCheckRules now rq
          ((ts.find? fun t => decide (slotQuery rq t)).isSome)) with
      | some msg => .ok false msg
      | none => .ok true "Time slot is available" := by
  cases h1 : outsideOperatingHours rq <;>
  cases h2 : badInterval rq <;>
  cases h3 : isWeekend rq <;>
  cases h4 : inPast rq now <;>
  cases h5 : tooFarAhead rq now <;>
  cases h6 : ts.find? fun t => decide (slotQuery rq t) <;>
  simp [checkAvailability, specCheckRules, firstFailing, h1, h2, h3, h4, h5, h6]

/-- Lemma: `addTicket` is exactly the first-failing-rule cascade over
`specAddRules`, with its own conflict bit plugged in last. -/
lemma addTicket_cascade (now : DateTime) (ts : List Ticket) (req : AddReq) :
    addTicket now (.ok ts) req =
      match firstFailing (specAddRules now req.requested
          ((ts.find? fun t => decide (addConflictQ req.requested t)).isSome)) with
      | some msg => .badRequest msg
      | none => .created (newTicketDoc req) := by
  cases h1 : outsideOperatingHours req.requested <;>
  cases h2 : badInterval req.requested <;>
  cases h3 : isWeekend req.requested <;>
  cases h4 : inPast req.requested now <;>
  cases h5 : tooFarAhead req.requested now <;>
  cases h6 : ts.find? fun t => decide (addConflictQ req.requested t) <;>
  simp [addTicket, specAddRules, firstFailing, h1, h2, h3, h4, h5, h6]

/-- Every validation-passing run of `checkAvailability` over a
successful ledger read answers with an `ok` (HTTP 200) body. -/
lemma checkAvailability_ok_shape (now rq : DateTime) (ts : List Ticket) :
    ∃ a m, checkAvailability now (.ok ts) rq = .ok a m := by
  rw [checkAvailability_cascade]
  cases firstFailing (specCheckRules now rq
      ((ts.find? fun t => decide (slotQuery rq t)).isSome)) <;>
    exact ⟨_, _, rfl⟩

/-- With a throwing ledger, `checkAvailability` reaches the 500 branch
exactly when all five validations pass. -/
lemma checkAvailability_error_iff (now rq : DateTime) :
    checkAvailability now (.error ()) rq = .serverError ↔
      (outsideOperatingHours rq = false ∧ badInterval rq = false ∧
        isWeekend rq = false ∧ inPast rq now = false ∧
        tooFarAhead rq now = false) := by
  cases h1 : outsideOperatingHours rq <;>
  cases h2 : badInterval rq <;>
  cases h3 : isWeekend rq <;>
  cases h4 : inPast rq now <;>
  cases h5 : tooFarAhead rq now <;>
  simp [checkAvailability, h1, h2, h3, h4, h5]

/-- C1, counterexample: the conflict lookup does not scope to the
requested department and does not treat `Cancelled` as non-blocking —
a `Pending` ticket of department 2 blocks a department-1 booking at the
same instant, and a `Cancelled` ticket of the same department blocks
too (the query excludes only `Rejected`). -/
theorem C1_counterexample :
    tOtherDept.departmentID ≠ addReq1.departmentID ∧
    tOtherDept.appointmentDateTime = addReq1.requested ∧
    tOtherDept.status = Status.Pending ∧
    addTicket now0 (.ok [tOtherDept]) addReq1 =
      .badRequest "This slot is already booked." ∧
    tCancelledSameDept.status = Status.Cancelled ∧
    tCancelledSameDept.departmentID = addReq1.departmentID ∧
    addTicket now0 (.ok [tCancelledSameDept]) addReq1 =
      .badRequest "This slot is already booked." ∧
    checkAvailability now0 (.ok [tOtherDept]) rq0 =
      .ok false "This slot is already booked." := by decide

/-- C1, amended: for a creation request passing all five validations,
the slot is refused exactly when some ticket of *any* department sits
in the conflict bucket with a status other than `Rejected` (so
`Pending`, `Approved` and `Cancelled` all block); relabelling every
ticket's `departmentID` never changes the outcome. -/
theorem C1_amended (now rq : DateTime) (ts : List Ticket) (n c d : Nat)
    (h1 : outsideOperatingHours rq = false) (h2 : badInterval rq = false)
    (h3 : isWeekend rq = false) (h4 : inPast rq now = false)
    (h5 : tooFarAhead rq now = false) :
    (addTicket now (.ok ts) ⟨n, c, d, rq⟩ =
        .badRequest "This slot is already booked." ↔
      ∃ t ∈ ts, (t.appointmentDateTime = rq ∨
        (t.appointmentDate = startOfDay rq ∧ t.appointmentTime = fmtHMS 0 0 0)) ∧
        t.status ≠ Status.Rejected) ∧
    (∀ f : Nat → Nat,
      addTicket now (.ok (ts.map fun t => { t with departmentID := f t.departmentID }))
          ⟨n, c, d, rq⟩ =
        addTicket now (.ok ts) ⟨n, c, d, rq⟩) := by
  have hrel : ∀ (f : Nat → Nat) (t : Ticket),
      addConflictQ rq { t with departmentID := f t.departmentID } ↔
        addConflictQ rq t := by
    intro f t; cases t; simp [addConflictQ]
  constructor
  · rw [addTicket_cascade]
    simp only [specAddRules, firstFailing, h1, h2, h3, h4, h5]
    cases hf : ts.find? (fun t => decide (addConflictQ rq t)) with
    | none =>
      rw [List.find?_eq_none] at hf
      simp only [Option.isSome_none, if_false]
      constructor
      · intro h; simp at h
      · rintro ⟨t, ht, hq⟩
        exact absurd (show addConflictQ rq t from hq) (by simpa using hf t ht)
    | some t =>
      simp only [Option.isSome_some, if_true]
      constructor
      · intro _
        refine ⟨t, List.mem_of_find?_eq_some hf, ?_⟩
        have := List.find?_some hf
        simpa [addConflictQ] using this
      · intro _; rfl
  · intro f
    rw [addTicket_cascade, addTicket_cascade]
    have hp : (fun t => decide (addConflictQ rq t)) ∘
        (fun t : Ticket => { t with departmentID := f t.departmentID }) =
        fun t => decide (addConflictQ rq t) := by
      funext t
      simp only [Function.comp_apply, decide_eq_decide]
      exact hrel f t
    have hfind : (ts.map fun t => { t with departmentID := f t.departmentID }).find?
        (fun t => decide (addConflictQ rq t)) =
        ((ts.find? fun t => decide (addConflictQ rq t)).map
          fun t => { t with departmentID := f t.departmentID }) := by
      rw [List.find?_map, hp]
    rw [hfind]
    cases ts.find? fun t => decide (addConflictQ rq t) <;> rfl

/-- C1, witness for the amended statement at a concrete input: a
department-2 `Pending` ticket blocks a department-1 booking. -/
theorem C1_amended_witness :
    addTicket now0 (.ok [tOtherDept]) ⟨100, 1, 1, rq0⟩ =
      .badRequest "This slot is already booked." := by
  have h := (C1_amended now0 rq0 [tOtherDept] 100 1 1 (by decide) (by decide)
    (by decide) (by decide) (by decide)).1
  exact h.mpr ⟨tOtherDept, by decide, by decide⟩

/-- C2: on an admitted booking for Monday 2025-03-10 09:00 the code
persists `appointmentDateTime` = 2025-03-10 00:00 and
`appointmentTime` = "00:00:00" (because `startOf("day")` inside the
conflict query mutated `bookingTime` before the save), so the stored
instant does not equal the requested date+time. -/
theorem C2_code_bug :
    addTicket now0 (.ok []) addReq1 = .created (newTicketDoc addReq1) ∧
    (newTicketDoc addReq1).appointmentDateTime = (⟨2025, 3, 10, 0, 0⟩ : DateTime) ∧
    (newTicketDoc addReq1).appointmentTime = "00:00:00" ∧
    addReq1.requested = (⟨2025, 3, 10, 9, 0⟩ : DateTime) ∧
    (newTicketDoc addReq1).appointmentDateTime ≠ addReq1.requested := by decide

/-- C3, counterexample: the update endpoint happily moves a ticket out
of the terminal state `Approved` back to `Pending`, answering 200
rather than a validation error. -/
theorem C3_counterexample :
    tApproved.status = Status.Approved ∧
    updateTicket now0 [tApproved] 5 ⟨some Status.Pending, none⟩ =
      .ok { tApproved with status := Status.Pending } ∧
    UpdateResult.httpStatus
      (updateTicket now0 [tApproved] 5 ⟨some Status.Pending, none⟩) = 200 := by decide

/-- C3, amended: `updateTicket` applies a requested status change
unconditionally — whatever the found ticket's current status
(terminal or not) and whatever the requested status, the update is
accepted with 200 and the stored status becomes the requested one. -/
theorem C3_amended (now : DateTime) (db : List Ticket) (id : Nat) (t : Ticket)
    (s : Status) (hfind : db.find? (fun u => decide (u.id = id)) = some t) :
    ∃ t2, updateTicket now db id ⟨some s, none⟩ = .ok t2 ∧ t2.status = s ∧
      UpdateResult.httpStatus (updateTicket now db id ⟨some s, none⟩) = 200 := by
  simp only [updateTicket, hfind]
  exact ⟨_, rfl, rfl, rfl⟩

/-- C3, witness: cancelling an already-`Approved` ticket is accepted. -/
theorem C3_amended_witness :
    ∃ t2, updateTicket now0 [tApproved] 5 ⟨some Status.Cancelled, none⟩ = .ok t2 ∧
      t2.status = Status.Cancelled ∧
      UpdateResult.httpStatus
        (updateTicket now0 [tApproved] 5 ⟨some Status.Cancelled, none⟩) = 200 :=
  C3_amended now0 [tApproved] 5 tApproved Status.Cancelled (by decide)

/-- C4: rejecting with an empty/missing reason is a 400 that leaves
the ledger untouched; with a non-empty reason the found ticket is
saved with status `Rejected`, the reason, `closedDate = now`, and a
supplied (truthy) `staffID`. -/
theorem C4_reject_requires_reason (now : DateTime) (db : List Ticket) (id : Nat)
    (body : RejectBody) :
    (body.rejectionReason = "" →
      rejectTicket now db id body = (.badRequest "Rejection reason is required", db)) ∧
    (body.rejectionReason ≠ "" →
      ∀ t, db.find? (fun u => decide (u.id = id)) = some t →
      ∃ t2, (rejectTicket now db id body).1 = .ok t2 ∧
        (rejectTicket now db id body).2 =
          db.map (fun u => if u.id = id then t2 else u) ∧
        t2.status = Status.Rejected ∧
        t2.rejectionReason = some body.rejectionReason ∧
        t2.closedDate = some now ∧
        (∀ s, body.staffID = some s → s ≠ "" → t2.staffID = some s) ∧
        (body.staffID = none → t2.staffID = t.staffID)) := by
  constructor
  · intro h
    simp [rejectTicket, h]
  · intro h t hfind
    simp only [rejectTicket, if_neg h, hfind]
    cases hsid : body.staffID with
    | none =>
      exact ⟨_, rfl, rfl, rfl, rfl, rfl, by simp [hsid], fun _ => rfl⟩
    | some s0 =>
      by_cases hs0 : s0 = ""
      · subst hs0
        refine ⟨_, rfl, rfl, by simp, by simp, by simp, ?_, by simp [hsid]⟩
        intro s hs hne
        cases hs
        exact absurd rfl hne
      · refine ⟨_, rfl, rfl, by simp [hs0], by simp [hs0], by simp [hs0], ?_,
          by simp [hsid]⟩
        intro s hs _
        cases hs
        simp [hs0]

/-- C4, witness: an empty reason is a 400 with an unchanged ledger; a
non-empty reason rejects the ticket with reason, closing date and
staff recorded. -/
theorem C4_witness :
    rejectTicket now0 [tPend] 3 ⟨"", none⟩ =
      (.badRequest "Rejection reason is required", [tPend]) ∧
    ∃ t2, (rejectTicket now0 [tPend] 3 ⟨"duplicate", some "staff9"⟩).1 = .ok t2 ∧
      t2.status = Status.Rejected ∧ t2.closedDate = some now0 ∧
      t2.staffID = some "staff9" := by
  refine ⟨(C4_reject_requires_reason now0 [tPend] 3 ⟨"", none⟩).1 rfl, ?_⟩
  obtain ⟨t2, e1, _, e3, _, e5, e6, _⟩ :=
    (C4_reject_requires_reason now0 [tPend] 3 ⟨"duplicate", some "staff9"⟩).2
      (by decide) tPend (by decide)
  exact ⟨t2, e1, e3, e5, e6 "staff9" rfl (by decide)⟩

/-- C5, counterexample: a ticket created `Pending` with no closing
date and then cancelled through the update endpoint ends with status
`Cancelled` and `closedDate` still unset — the claimed "closedDate set
iff status ≠ Pending" invariant fails at a reachable state. -/
theorem C5_counterexample :
    addTicket now0 (.ok []) addReq1 = .created (newTicketDoc addReq1) ∧
    updateTicket now0 [newTicketDoc addReq1] 100 ⟨some Status.Cancelled, none⟩ =
      .ok { newTicketDoc addReq1 with status := Status.Cancelled } ∧
    ({ newTicketDoc addReq1 with status := Status.Cancelled } : Ticket).status ≠
      Status.Pending ∧
    ({ newTicketDoc addReq1 with status := Status.Cancelled } : Ticket).closedDate =
      none := by decide

/-- C5, amended: creation stores `Pending` with no `closedDate`; a
status update to `Approved` or `Rejected` stamps `closedDate = now`;
but a move into `Cancelled` leaves `closedDate` exactly as it was, so
the set-iff-non-Pending biconditional holds only for the `Approved`
and `Rejected` transitions. -/
theorem C5_amended (now : DateTime) (ts : List Ticket) (req : AddReq)
    (dbu : List Ticket) (id : Nat) (t : Ticket)
    (hfind : dbu.find? (fun u => decide (u.id = id)) = some t) :
    (∀ t0, addTicket now (.ok ts) req = .created t0 →
      t0.status = Status.Pending ∧ t0.closedDate = none) ∧
    (∀ s, s = Status.Approved ∨ s = Status.Rejected →
      ∃ t2, updateTicket now dbu id ⟨some s, none⟩ = .ok t2 ∧
        t2.closedDate = some now ∧ t2.status = s) ∧
    (∃ t2, updateTicket now dbu id ⟨some Status.Cancelled, none⟩ = .ok t2 ∧
      t2.status = Status.Cancelled ∧ t2.closedDate = t.closedDate) := by
  refine ⟨?_, ?_, ?_⟩
  · intro t0 h
    rw [addTicket_cascade] at h
    cases hff : firstFailing (specAddRules now req.requested
        ((ts.find? fun u => decide (addConflictQ req.requested u)).isSome)) with
    | some msg => rw [hff] at h; cases h
    | none =>
      rw [hff] at h
      have hinj : newTicketDoc req = t0 := by
        cases h; rfl
      subst hinj
      exact ⟨rfl, rfl⟩
  · intro s hs
    simp only [updateTicket, hfind]
    refine ⟨_, rfl, ?_, rfl⟩
    have : (some s = some Status.Approved ∨ some s = some Status.Rejected) := by
      rcases hs with h | h <;> [left; right] <;> rw [h]
    rw [if_pos this]
    rfl
  · simp only [updateTicket, hfind]
    refine ⟨_, rfl, rfl, ?_⟩
    rw [if_neg (by simp)]
    rfl

/-- C5, witness: creation at a concrete slot yields `Pending` with no
`closedDate`; approving stamps `closedDate`; cancelling does not. -/
theorem C5_amended_witness :
    ((newTicketDoc addReq1).status = Status.Pending ∧
      (newTicketDoc addReq1).closedDate = none) ∧
    (∃ t2, updateTicket now0 [tPend] 3 ⟨some Status.Approved, none⟩ = .ok t2 ∧
      t2.closedDate = some now0 ∧ t2.status = Status.Approved) ∧
    (∃ t2, updateTicket now0 [tPend] 3 ⟨some Status.Cancelled, none⟩ = .ok t2 ∧
      t2.status = Status.Cancelled ∧ t2.closedDate = tPend.closedDate) := by
  have h := C5_amended now0 [] addReq1 [tPend] 3 tPend (by decide)
  exact ⟨h.1 (newTicketDoc addReq1) (by decide),
    h.2.1 Status.Approved (Or.inl rfl), h.2.2⟩

/-- C6: both endpoints implement the spec's ordered cascade — the
outcome is determined by the first failing rule in the fixed order
operating hours, 15-minute alignment, weekend, not-in-past, 3-month
horizon, slot conflict, and when no rule fails the request is admitted
(`available=true` resp. a created `Pending` ticket). -/
theorem C6_ordered_validation (now rq : DateTime) (ts : List Ticket) (n c d : Nat) :
    (checkAvailability now (.ok ts) rq =
      match firstFailing (specCheckRules now rq
          ((ts.find? fun t => decide (slotQuery rq t)).isSome)) with
      | some msg => .ok false msg
      | none => .ok true "Time slot is available") ∧
    (addTicket now (.ok ts) ⟨n, c, d, rq⟩ =
      match firstFailing (specAddRules now rq
          ((ts.find? fun t => decide (addConflictQ rq t)).isSome)) with
      | some msg => .badRequest msg
      | none => .created (newTicketDoc ⟨n, c, d, rq⟩)) :=
  ⟨checkAvailability_cascade now rq ts, addTicket_cascade now ts ⟨n, c, d, rq⟩⟩

/-- C7, counterexample: 15:50 is *not* admitted — it passes the
operating-hours window but fails the 15-minute-interval rule, on both
endpoints. -/
theorem C7_counterexample :
    checkAvailability now0 (.ok []) ⟨2025, 3, 10, 15, 50⟩ =
      .ok false "Appointments must be scheduled at 15-minute intervals." ∧
    addTicket now0 (.ok []) ⟨101, 1, 1, ⟨2025, 3, 10, 15, 50⟩⟩ =
      .badRequest "Appointments must be scheduled at 15-minute intervals." := by decide

/-- C7, amended: 15:45 is admitted (and is the last bookable slot);
15:50 lies inside the 8:00–15:50 hours window yet is rejected by the
15-minute alignment rule; 16:00 is rejected as outside operating
hours. -/
theorem C7_amended :
    checkAvailability now0 (.ok []) ⟨2025, 3, 10, 15, 45⟩ =
      .ok true "Time slot is available" ∧
    outsideOperatingHours ⟨2025, 3, 10, 15, 50⟩ = false ∧
    checkAvailability now0 (.ok []) ⟨2025, 3, 10, 15, 50⟩ =
      .ok false "Appointments must be scheduled at 15-minute intervals." ∧
    checkAvailability now0 (.ok []) ⟨2025, 3, 10, 16, 0⟩ =
      .ok false "Time must be between 8:00 AM and 3:50 PM." := by decide

/-- C8: with the four earlier rules passing, a request strictly after
`now + 3 months` is refused with the too-far-ahead message, and a
request exactly at `now + 3 months` passes the horizon rule (boundary
inclusive) and is admitted when the slot is free. -/
theorem C8_horizon (now rq : DateTime) (ts : List Ticket)
    (h1 : outsideOperatingHours rq = false) (h2 : badInterval rq = false)
    (h3 : isWeekend rq = false) (h4 : inPast rq now = false) :
    (tooFarAhead rq now = true →
      checkAvailability now (.ok ts) rq =
        .ok false "Cannot book appointments more than 3 months in advance.") ∧
    (rq = addMonths3 now →
      ts.find? (fun t => decide (slotQuery rq t)) = none →
      checkAvailability now (.ok ts) rq = .ok true "Time slot is available") := by
  constructor
  · intro h5
    simp [checkAvailability, h1, h2, h3, h4, h5]
  · intro heq hf
    have h5 : tooFarAhead rq now = false := by
      subst heq; simp [tooFarAhead, dtLt_irrefl]
    simp [checkAvailability, h1, h2, h3, h4, h5, hf]

/-- C8, witness: from 2025-03-10 09:00, a request at 2025-06-10 09:15
is past the horizon and refused; 2025-06-10 09:00 is exactly three
months ahead and admitted. -/
theorem C8_horizon_witness :
    checkAvailability ⟨2025, 3, 10, 9, 0⟩ (.ok []) ⟨2025, 6, 10, 9, 15⟩ =
      .ok false "Cannot book appointments more than 3 months in advance." ∧
    checkAvailability ⟨2025, 3, 10, 9, 0⟩ (.ok []) ⟨2025, 6, 10, 9, 0⟩ =
      .ok true "Time slot is available" :=
  ⟨(C8_horizon ⟨2025, 3, 10, 9, 0⟩ ⟨2025, 6, 10, 9, 15⟩ [] (by decide) (by decide)
      (by decide) (by decide)).1 (by decide),
    (C8_horizon ⟨2025, 3, 10, 9, 0⟩ ⟨2025, 6, 10, 9, 0⟩ [] (by decide) (by decide)
      (by decide) (by decide)).2 (by decide) rfl⟩

/-- C9, counterexample: DELETE hard-deletes — after deleting the only
ticket the ledger is empty, there is no `Cancelled` record left. -/
theorem C9_counterexample :
    deleteTicket [tPend] 3 = (DeleteResult.ok, ([] : List Ticket)) ∧
    ¬ ∃ t ∈ (deleteTicket [tPend] 3).2, t.status = Status.Cancelled := by decide

/-- C9, amended: `deleteTicket` physically removes the record — a
successful delete leaves no ticket with that id in the ledger (it is
`findByIdAndDelete`, not a `Cancelled` status transition). -/
theorem C9_amended (db : List Ticket) (id : Nat) (t : Ticket)
    (hfind : db.find? (fun u => decide (u.id = id)) = some t) :
    (deleteTicket db id).1 = DeleteResult.ok ∧
    ∀ u ∈ (deleteTicket db id).2, u.id ≠ id := by
  unfold deleteTicket
  rw [hfind]
  refine ⟨rfl, ?_⟩
  intro u hu
  have := (List.mem_filter.mp hu).2
  simpa using this

/-- C9, witness: deleting the concrete pending ticket succeeds and no
record with its id survives. -/
theorem C9_amended_witness :
    (deleteTicket [tPend] 3).1 = DeleteResult.ok ∧
    ∀ u ∈ (deleteTicket [tPend] 3).2, u.id ≠ 3 :=
  C9_amended [tPend] 3 tPend (by decide)

/-- C10: the availability endpoint never answers 4xx — over a
successful ledger read it is always HTTP 200, over any ledger outcome
it is 200 or 500, and 500 happens with a throwing ledger exactly when
all five validations pass (only then is the query reached); whenever a
validation rule fails, the availability endpoint answers 200 with
`available=false` while the creation endpoint answers 400 for the same
input, regardless of the ledger. -/
theorem C10_response_codes (now rq : DateTime) (ts : List Ticket) (n c d : Nat) :
    CheckResult.httpStatus (checkAvailability now (.ok ts) rq) = 200 ∧
    (∀ db, CheckResult.httpStatus (checkAvailability now db rq) = 200 ∨
      CheckResult.httpStatus (checkAvailability now db rq) = 500) ∧
    (checkAvailability now (.error ()) rq = .serverError ↔
      (outsideOperatingHours rq = false ∧ badInterval rq = false ∧
        isWeekend rq = false ∧ inPast rq now = false ∧
        tooFarAhead rq now = false)) ∧
    ((outsideOperatingHours rq || badInterval rq || isWeekend rq ||
        inPast rq now || tooFarAhead rq now) = true →
      ∀ db, (checkAvailability now db rq).availableFlag = some false ∧
        CheckResult.httpStatus (checkAvailability now db rq) = 200 ∧
        AddResult.httpStatus (addTicket now db ⟨n, c, d, rq⟩) = 400) := by
  refine ⟨?_, ?_, checkAvailability_error_iff now rq, ?_⟩
  · obtain ⟨a, m, h⟩ := checkAvailability_ok_shape now rq ts
    rw [h]; rfl
  · intro db
    cases checkAvailability now db rq <;> simp [CheckResult.httpStatus]
  · intro h db
    cases h1 : outsideOperatingHours rq <;>
    cases h2 : badInterval rq <;>
    cases h3 : isWeekend rq <;>
    cases h4 : inPast rq now <;>
    cases h5 : tooFarAhead rq now <;>
    simp_all [checkAvailability, addTicket, CheckResult.availableFlag,
      CheckResult.httpStatus, AddResult.httpStatus]

/-- C10, witness: at 15:50 (alignment failure) the availability
endpoint answers 200/`available=false` even with a throwing ledger, and
creation answers 400; over an empty ledger the availability endpoint
answers 200. -/
theorem C10_witness :
    CheckResult.httpStatus (checkAvailability now0 (.ok []) rq0) = 200 ∧
    (checkAvailability now0 (.error ()) ⟨2025, 3, 10, 15, 50⟩).availableFlag =
      some false ∧
    AddResult.httpStatus
      (addTicket now0 (.error ()) ⟨102, 1, 1, ⟨2025, 3, 10, 15, 50⟩⟩) = 400 := by
  have h := (C10_response_codes now0 ⟨2025, 3, 10, 15, 50⟩ [] 102 1 1).2.2.2
    (by decide) (.error ())
  exact ⟨(C10_response_codes now0 rq0 [] 102 1 1).1, h.1, h.2.2⟩

end GovHub
